import Mathlib

/-!
Verification development for the Aquatiq root-container integration gateway
(Go sources). Each Go function relevant to the checked properties is given a
shallow embedding as an executable Lean definition; theorems about those
definitions settle the specification claims.

Conventions used throughout:
* Go strings are embedded as Lean `String`s; all inputs appearing in the
  sources and in the health/whitelist configuration are ASCII, so Go's
  byte-wise indexing coincides with character indexing.
* `time.Time` values are embedded as `Nat` (Unix seconds); Go's
  `a.After(b)` is `b < a`.
* Go `uint64` arithmetic is `Nat` arithmetic with explicit `% 2^64`
  where overflow matters; Go `int64`/`time.Duration` arithmetic is `Int`
  arithmetic reduced into `[-2^63, 2^63)` where overflow matters.
* Go float64 arithmetic in the container-stats calculations is embedded as
  exact rational arithmetic (`ℚ`); the checked properties are order/bound
  statements on quotients of integers, which the monotone float operations
  preserve.
-/

namespace Aquatiq

/-! ## IPv4 / CIDR parsing (embedding of `net.ParseIP` / `net.ParseCIDR`
as used by `internal/whitelist`)

The gateway's whitelist code calls Go's standard `net` package. We embed the
dotted-quad IPv4 behaviour of `net.ParseIP` and `net.ParseCIDR` (Go ≥ 1.17:
an octet is 1–3 decimal digits, no leading zeros, value ≤ 255). Other
address syntaxes (IPv6 and malformed strings) are embedded as parse
failures; no checked claim distinguishes among inputs that fail to parse. -/

/-- Split a character list at every occurrence of `c` (embedding of the
byte-wise field splitting done by Go's `net` parsers). -/
def splitOnChar (c : Char) : List Char → List (List Char)
  | [] => [[]]
  | x :: xs =>
    match splitOnChar c xs with
    | [] => if x = c then [[], []] else [[x]]
    | y :: ys => if x = c then [] :: y :: ys else (x :: y) :: ys

/-- Decimal value of a digit character, `none` on a non-digit. -/
def charDigit (ch : Char) : Option Nat :=
  if ch.isDigit then some (ch.toNat - 48) else none

/-- Decimal value of a digit string (`none` if any character is not a
digit); the empty list yields `some 0` and is rejected by the callers. -/
def decVal (l : List Char) : Option Nat :=
  l.foldl (fun acc ch => acc.bind fun a => (charDigit ch).map fun d => a * 10 + d)
    (some 0)

/-- One dotted-quad octet: 1–3 decimal digits, no leading zero, value
≤ 255 (Go ≥ 1.17 `net.ParseIP` field rules). -/
def parseV4Octet (l : List Char) : Option Nat :=
  match decVal l with
  | none => none
  | some n =>
    if l.length = 0 ∨ 3 < l.length then none
    else if 1 < l.length ∧ l.head? = some '0' then none
    else if n ≤ 255 then some n else none

/-- Embedding of `net.ParseIP` restricted to IPv4 dotted-quad syntax; the
result is the address as a 32-bit value. -/
def parseIPv4Chars (l : List Char) : Option Nat :=
  match splitOnChar '.' l with
  | [a, b, c, d] =>
    match parseV4Octet a, parseV4Octet b, parseV4Octet c, parseV4Octet d with
    | some x, some y, some z, some w => some (((x * 256 + y) * 256 + z) * 256 + w)
    | _, _, _, _ => none
  | _ => none

/-- `net.ParseIP` on a Go string. -/
def parseIP (s : String) : Option Nat :=
  parseIPv4Chars s.toList

/-- The 32-bit network mask of a prefix length `n ≤ 32`: the top `n` bits
set. -/
def maskBits (n : Nat) : Nat :=
  2 ^ 32 - 2 ^ (32 - n)

/-- Prefix-length field of a CIDR: decimal digits, no leading zeros,
value ≤ 32. -/
def parseMaskLen (l : List Char) : Option Nat :=
  match decVal l with
  | none => none
  | some n =>
    if l.length = 0 then none
    else if 1 < l.length ∧ l.head? = some '0' then none
    else if n ≤ 32 then some n else none

/-- Embedding of `net.ParseCIDR` for IPv4: returns the masked network base
address together with the prefix length (`ParseCIDR` returns the network
with `IP: ip.Mask(mask)`, i.e. already masked). -/
def parseCIDR (s : String) : Option (Nat × Nat) :=
  match splitOnChar '/' s.toList with
  | [addr, maskPart] =>
    match parseIPv4Chars addr, parseMaskLen maskPart with
    | some base, some n => some (Nat.land base (maskBits n), n)
    | _, _ => none
  | _ => none

/-! ## AccessListManager (embedding of `internal/whitelist`, `Manager`)

The manager's observable state is the in-memory whitelist and blacklist
plus the external Traefik dynamic-configuration file it synchronizes. The
file system is embedded explicitly: each mutating operation takes the
current time `now` and a flag `writeOk` saying whether the `os.WriteFile`
performed by `updateTraefikConfig` succeeds, and returns the resulting
state together with an optional error string (mirroring the `error`
return). `writeAttempts` counts invocations of `updateTraefikConfig`, so
"no file write is performed" is expressible. Audit logging is
fire-and-forget in the source and does not affect manager state, so it is
not part of the state. -/

/-- Embedding of `whitelist.IPEntry`. -/
structure IPEntry where
  ip : String
  description : String
  addedAt : Nat
  addedBy : String
  expiresAt : Option Nat
  deriving DecidableEq, Repr

/-- The contents of the Traefik dynamic-configuration file as written by
`updateTraefikConfig`: the serialized `sourceRange` list plus the
`Last updated` header timestamp. -/
structure TraefikFileContents where
  sourceRange : List String
  lastUpdated : Nat
  deriving DecidableEq, Repr

/-- Observable state of `whitelist.Manager` together with the external
file it is kept in lockstep with. -/
structure ManagerState where
  whitelist : List IPEntry
  blacklist : List IPEntry
  file : Option TraefikFileContents
  writeAttempts : Nat
  deriving DecidableEq, Repr

/-- Embedding of `validateIPOrCIDR`: ok iff the pattern parses as a CIDR
or as an IP. -/
def validateIPOrCIDR (s : String) : Bool :=
  (parseCIDR s).isSome || (parseIP s).isSome

/-- Embedding of `Manager.ipMatches`: CIDR containment if the pattern
parses as a CIDR, else exact equality if it parses as an IP, else no
match. -/
def ipMatches (ip : Nat) (pat : String) : Bool :=
  match parseCIDR pat with
  | some (base, n) => Nat.land ip (maskBits n) == base
  | none =>
    match parseIP pat with
    | some p => ip == p
    | none => false

/-- `entry.ExpiresAt != nil && now.After(*entry.ExpiresAt)`. -/
def entryExpired (e : IPEntry) (now : Nat) : Bool :=
  match e.expiresAt with
  | some t => t < now
  | none => false

/-- Embedding of `Manager.updateTraefikConfig`: serialize the non-expired
whitelist entries into the external file wholesale; on write failure the
file is unchanged and an error is returned. The attempt counter records
that a write was attempted. -/
def updateTraefikConfig (st : ManagerState) (now : Nat) (writeOk : Bool) :
    ManagerState × Option String :=
  let sourceRange := (st.whitelist.filter (fun e => ¬entryExpired e now)).map (·.ip)
  if writeOk then
    ({ st with file := some ⟨sourceRange, now⟩, writeAttempts := st.writeAttempts + 1 },
      none)
  else
    ({ st with writeAttempts := st.writeAttempts + 1 },
      some "failed to write config file")

/-- Embedding of `Manager.AddToWhitelist`. Validation and the duplicate
check happen before the list is touched; on a failed config write the
appended entry is popped again (`m.whitelist = m.whitelist[:len-1]`) and
the error is returned. -/
def addToWhitelist (st : ManagerState) (ip description addedBy : String)
    (expiresAt : Option Nat) (now : Nat) (writeOk : Bool) :
    ManagerState × Option String :=
  if ¬validateIPOrCIDR ip then
    (st, some ("invalid IP or CIDR: " ++ ip))
  else if st.whitelist.any (fun e => e.ip == ip) then
    (st, some ("IP " ++ ip ++ " already in whitelist"))
  else
    let entry : IPEntry := ⟨ip, description, now, addedBy, expiresAt⟩
    let st1 := { st with whitelist := st.whitelist ++ [entry] }
    match updateTraefikConfig st1 now writeOk with
    | (st2, none) => (st2, none)
    | (st2, some e) =>
      ({ st2 with whitelist := st2.whitelist.dropLast },
        some ("failed to update Traefik config: " ++ e))

/-- Embedding of `Manager.RemoveFromWhitelist`. The new (filtered) list is
installed before the config write; on a failed write the error is returned
but the in-memory list is left as the filtered list (no rollback in the
source). -/
def removeFromWhitelist (st : ManagerState) (ip removedBy : String)
    (now : Nat) (writeOk : Bool) : ManagerState × Option String :=
  let kept := st.whitelist.filter (fun e => e.ip ≠ ip)
  let found := st.whitelist.any (fun e => e.ip == ip)
  if ¬found then
    (st, some ("IP " ++ ip ++ " not found in whitelist"))
  else
    let st1 := { st with whitelist := kept }
    match updateTraefikConfig st1 now writeOk with
    | (st2, none) => (st2, none)
    | (st2, some e) => (st2, some ("failed to update Traefik config: " ++ e))

/-- Embedding of `Manager.CleanupExpired`: drop expired whitelist entries;
if any were removed, re-synchronize once with the write error discarded
(`_ = m.updateTraefikConfig()`). Returns the new state and the removal
count — the function has no error return. -/
def cleanupExpired (st : ManagerState) (now : Nat) (writeOk : Bool) :
    ManagerState × Nat :=
  let kept := st.whitelist.filter (fun e => ¬entryExpired e now)
  let removed := st.whitelist.length - kept.length
  if 0 < removed then
    let st1 := { st with whitelist := kept }
    ((updateTraefikConfig st1 now writeOk).1, removed)
  else
    (st, removed)

/-- Embedding of `Manager.IsAllowed`: parse the IP (unparsable → `false`);
any blacklist match → `false`; otherwise any non-expired whitelist match →
`true`; otherwise `false`. -/
def isAllowed (st : ManagerState) (ip : String) (now : Nat) : Bool :=
  match parseIP ip with
  | none => false
  | some p =>
    if st.blacklist.any (fun e => ipMatches p e.ip) then false
    else st.whitelist.any (fun e => ¬entryExpired e now ∧ ipMatches p e.ip)

/-! ## DependencyHealthMonitor (embedding of `internal/health`)

`CheckPostgreSQL` performs a chain of probes (open connection, ping,
version query, connection-stats query, size query) and is healthy exactly
when every step except the optional size query succeeds. The outcome of
each probe is an input of the embedding. -/

/-- Outcomes of the individual PostgreSQL probe steps performed by
`DatabaseChecker.CheckPostgreSQL`. -/
structure PGProbe where
  openOk : Bool
  pingOk : Bool
  versionOk : Bool
  statsOk : Bool
  sizeOk : Bool
  deriving DecidableEq, Repr

/-- The `Status` field of `CheckPostgreSQL`'s result: `"unhealthy"` is the
initial value, returned early if opening, pinging, the version query or
the connection-stats query fails; a failed size query only omits the size
field. -/
def checkPostgreSQLStatus (p : PGProbe) : String :=
  if ¬p.openOk then "unhealthy"
  else if ¬p.pingOk then "unhealthy"
  else if ¬p.versionOk then "unhealthy"
  else if ¬p.statsOk then "unhealthy"
  else "healthy"

/-- Outcomes of the Redis probe performed by `DatabaseChecker.CheckRedis`:
whether a cache is configured at all (`redisCache != nil`) and whether the
ping succeeds. -/
structure RedisProbe where
  configured : Bool
  pingOk : Bool
  deriving DecidableEq, Repr

/-- The `Status` field of `CheckRedis`'s result: `"unhealthy"` when no
cache is configured or the ping fails, `"healthy"` otherwise. -/
def checkRedisStatus (r : RedisProbe) : String :=
  if ¬r.configured then "unhealthy"
  else if ¬r.pingOk then "unhealthy"
  else "healthy"

/-- Embedding of `health.DatabaseChecker`: the probe environments of both
dependencies it can check. -/
structure DatabaseChecker where
  pg : PGProbe
  redis : RedisProbe
  deriving DecidableEq, Repr

/-- Embedding of `HealthChecker.Readiness`: runs `CheckPostgreSQL` and
returns `false` iff its status is not `"healthy"`; the Redis check is
never consulted (`// Redis is optional, don't fail readiness if it's
down`). -/
def readiness (d : DatabaseChecker) : Bool :=
  checkPostgreSQLStatus d.pg == "healthy"

/-! ## AdmissionController (embedding of `internal/ratelimit`, `Limiter`)

The local token buckets are `rate.Limiter` values from the external
`golang.org/x/time/rate` library; they are embedded as decision oracles
(`localGlobalAllow` / `localAdminAllow`): the boolean the tier's local
bucket's `Allow()` would return for the current request. The distributed
cache's `Increment` is embedded as a function from key to
`Except error count`. `rate.Limit` is a float64 but always carries the
integer request-per-second value it was constructed from, so limits are
embedded as `Int` (`int64(limit)` in the source truncates exactly to that
integer). -/

structure RLimiter where
  distributed : Bool
  hasCache : Bool
  cacheIncrement : String → Except String Int
  localGlobalAllow : Bool
  localAdminAllow : Bool
  globalLimit : Int
  adminLimit : Int

/-- The per-minute window key `fmt.Sprintf("ratelimit:%s:%d", tier,
time.Now().Unix()/60)`; `now` is Unix seconds (nonnegative in every
reachable execution, so `Nat` division coincides with Go's). -/
def rateLimitKey (tier : String) (now : Nat) : String :=
  "ratelimit:" ++ tier ++ ":" ++ toString (now / 60)

/-- Embedding of `Limiter.allowDistributed`: increment the window counter;
on a cache error fall back to the tier's local bucket decision; otherwise
admit iff the post-increment count is at most `limit × 60`. The
`Expire` call on the window-creating increment does not affect the
decision and is omitted. -/
def allowDistributed (l : RLimiter) (tier : String) (limit : Int) (now : Nat) : Bool :=
  match l.cacheIncrement (rateLimitKey tier now) with
  | .error _ => if tier == "admin" then l.localAdminAllow else l.localGlobalAllow
  | .ok count => count ≤ limit * 60

/-- Embedding of `Limiter.AllowGlobal`. -/
def allowGlobal (l : RLimiter) (now : Nat) : Bool :=
  if l.distributed ∧ l.hasCache then allowDistributed l "global" l.globalLimit now
  else l.localGlobalAllow

/-- Embedding of `Limiter.AllowAdmin`. -/
def allowAdmin (l : RLimiter) (now : Nat) : Bool :=
  if l.distributed ∧ l.hasCache then allowDistributed l "admin" l.adminLimit now
  else l.localAdminAllow

/-! ## ResilientInvoker retry backoff (embedding of `internal/httpclient`,
the `retryClient.Backoff` closure installed by `httpclient.New`)

Durations are `Int` nanoseconds (Go `time.Duration` is an `int64` count of
nanoseconds); arithmetic that can overflow is reduced into
`[-2^63, 2^63)`. -/

/-- Reduce an integer into the range of Go's `int64` (two's-complement
wraparound). -/
def toInt64 (z : Int) : Int :=
  (z + 2 ^ 63) % 2 ^ 64 - 2 ^ 63

/-- The HTTP response as seen by the backoff closure: its status code and
the result of `resp.Header.Get("Retry-After")` (the empty string when the
header is absent). -/
structure GoResponse where
  statusCode : Int
  retryAfter : String
  deriving DecidableEq, Repr

/-- Embedding of `time.ParseDuration(retryAfter + "s")` restricted to the
nonnegative integer-second header values the retry policy quantifies over:
a nonempty all-digit string `n` parses to `n` seconds in nanoseconds
(with `ParseDuration`'s `int64` overflow rejection). Header values of
other shapes (signs, fractions, unit suffixes) are treated as unparsable;
no checked claim concerns them. -/
def goParseSecondsDuration (h : String) : Option Int :=
  if h.toList ≠ [] ∧ h.toList.all Char.isDigit then
    match decVal h.toList with
    | some n =>
      if (n : Int) * 1000000000 < 2 ^ 63 then some ((n : Int) * 1000000000)
      else none
    | none => none
  else none

/-- The exponential part of the backoff closure:
`wait := min * time.Duration(1 << uint(attemptNum)); if wait > max { wait = max }`.
Go's shift of the 64-bit `1` and the duration multiplication both wrap in
`int64`. -/
def expBackoffWait (mn mx : Int) (attemptNum : Nat) : Int :=
  let wait := toInt64 (mn * toInt64 ((2 : Int) ^ attemptNum % 2 ^ 64))
  if mx < wait then mx else wait

/-- Embedding of the `retryClient.Backoff` closure: a 429 response whose
`Retry-After` header parses as a duration overrides the computed
exponential backoff; every other case falls through to the exponential
wait. -/
def retryBackoff (mn mx : Int) (attemptNum : Nat) (resp : Option GoResponse) : Int :=
  match resp with
  | some r =>
    if r.statusCode = 429 ∧ r.retryAfter ≠ "" then
      match goParseSecondsDuration r.retryAfter with
      | some d => d
      | none => expBackoffWait mn mx attemptNum
    else expBackoffWait mn mx attemptNum
  | none => expBackoffWait mn mx attemptNum

/-! ## CircuitBreaker.ExecuteContext (embedding of `pkg/circuitbreaker`)

`ExecuteContext` checks `ctx.Err()` once, then spawns
`go func() { data, err := cb.Execute(fn); resultChan <- ... }()` and
selects between `ctx.Done()` and the result channel. The closure handed to
the goroutine captures neither `ctx` nor any cancellation signal, so once
started the underlying call runs to completion no matter when the context
is cancelled; cancellation only changes what the caller observes. The
embedding records both: what the caller receives (`none` standing for
`ctx.Err()`) and whether the spawned underlying call runs to
completion. -/

structure ExecTrace (α : Type) where
  callerResult : Option α
  underlyingCompleted : Bool
  deriving DecidableEq, Repr

/-- Embedding of `CircuitBreaker.ExecuteContext` over the cancellation
schedule of the caller's context: `cancelledBeforeStart` is whether
`ctx.Err()` is already non-nil at entry, `cancelledInFlight` whether the
context is cancelled while the spawned call is still running. -/
def executeContext {α : Type} (cancelledBeforeStart cancelledInFlight : Bool)
    (fnResult : α) : ExecTrace α :=
  if cancelledBeforeStart then ⟨none, false⟩
  else if cancelledInFlight then ⟨none, true⟩
  else ⟨some fnResult, true⟩

/-! ## WorkloadController stats (embedding of `internal/docker`,
`Manager.GetContainerStats`) -/

/-- Go `uint64` subtraction (wraparound modulo `2^64`); coincides with
Go's for operands below `2^64`, which all `uint64` fields are. -/
def sub64 (a b : Nat) : Nat :=
  (a % 2 ^ 64 + (2 ^ 64 - b % 2 ^ 64)) % 2 ^ 64

/-- `container.StatsResponse` fields used by the stats calculation. -/
structure GoCPUUsage where
  totalUsage : Nat
  percpuUsage : List Nat
  deriving DecidableEq, Repr

structure GoCPUStats where
  cpuUsage : GoCPUUsage
  systemUsage : Nat
  deriving DecidableEq, Repr

structure GoMemoryStats where
  usage : Nat
  limit : Nat
  deriving DecidableEq, Repr

structure StatsResponse where
  cpuStats : GoCPUStats
  preCPUStats : GoCPUStats
  memoryStats : GoMemoryStats
  deriving DecidableEq, Repr

/-- The CPU-percentage calculation of `GetContainerStats`: `0.0` unless
the previous system usage is non-zero and the (wraparound) system delta is
positive, else `ΔcumulativeCPU / ΔtotalSystemCPU × coreCount × 100` where
`coreCount = len(PercpuUsage)`. Arithmetic is exact over `ℚ`. -/
def cpuPercentOf (s : StatsResponse) : ℚ :=
  if s.preCPUStats.systemUsage ≠ 0 then
    let cpuDelta : ℚ := (sub64 s.cpuStats.cpuUsage.totalUsage s.preCPUStats.cpuUsage.totalUsage : Nat)
    let systemDelta : ℚ := (sub64 s.cpuStats.systemUsage s.preCPUStats.systemUsage : Nat)
    if 0 < systemDelta then
      cpuDelta / systemDelta * (s.cpuStats.cpuUsage.percpuUsage.length : ℚ) * 100
    else 0
  else 0

/-- The memory-percentage calculation of `GetContainerStats`: `0.0` unless
the limit is positive, else `usage / limit × 100`. -/
def memPercentOf (s : StatsResponse) : ℚ :=
  if 0 < s.memoryStats.limit then
    (s.memoryStats.usage : ℚ) / (s.memoryStats.limit : ℚ) * 100
  else 0

/-- Go string slicing `s[:n]`: defined (the first `n` bytes) when
`n ≤ len(s)`, a runtime panic otherwise — embedded as `none`. The
identifiers involved are ASCII, so byte indexing coincides with character
indexing. -/
def goStringSliceTo (s : String) (n : Nat) : Option String :=
  if n ≤ s.length then some (s.take n) else none

/-- The `ID` field of the `ContainerStats` value built by
`GetContainerStats`: `nameOrID[:12]`, applied unconditionally to the
caller-supplied name-or-ID. -/
def getContainerStatsID (nameOrID : String) : Option String :=
  goStringSliceTo nameOrID 12

/-! ## AuditTrail IP masking (embedding of `internal/audit`) -/

/-- Embedding of `audit.maskIP`: `"unknown"` for the empty string; for a
string longer than 7 bytes, its first 7 bytes with `".xxx.xxx"` appended;
`"masked"` otherwise. -/
def maskIP (ip : String) : String :=
  if ip = "" then "unknown"
  else if 7 < ip.length then ip.take 7 ++ ".xxx.xxx"
  else "masked"

/-- The fields of `audit.AuditEvent` relevant to masking. -/
structure AuditEventM where
  action : String
  actor : String
  resource : String
  success : Bool
  ipAddress : String
  deriving DecidableEq, Repr

/-- Embedding of `AuditLogger.LogEvent`'s transformation of the event
before it is emitted: `event.IPAddress = maskIP(event.IPAddress)`. -/
def logEventEmitted (e : AuditEventM) : AuditEventM :=
  { e with ipAddress := maskIP e.ipAddress }

/-! ## Concrete example states used by witnesses and counterexamples -/

def exEntry1 : IPEntry := ⟨"10.0.0.1", "eng laptop", 0, "alice", none⟩

def exState1 : ManagerState := ⟨[exEntry1], [], some ⟨["10.0.0.1"], 0⟩, 1⟩

def exState2 : ManagerState :=
  ⟨[exEntry1], [⟨"10.0.0.0/8", "blocked range", 0, "alice", none⟩], none, 0⟩

def exState3 : ManagerState := ⟨[⟨"10.0.0.9", "temp", 0, "alice", some 50⟩], [], none, 0⟩

def exLimiter : RLimiter :=
  ⟨true, true, fun _ => .error "redis: connection refused", true, false, 100, 20⟩

def exCheckerPgDown : DatabaseChecker := ⟨⟨true, false, true, true, true⟩, ⟨true, true⟩⟩

/-- A stats sample satisfying the claim's well-formedness conditions
(previous system usage 100 ≠ 0, system delta 100 > 0, memory limit
100 > 0, one CPU core) whose container CPU delta exceeds the system delta
and whose memory usage exceeds the limit. -/
def c8Bad : StatsResponse := ⟨⟨⟨200, [0]⟩, 200⟩, ⟨⟨0, [0]⟩, 100⟩, ⟨200, 100⟩⟩

/-- A two-core stats sample with container delta 50 ≤ system delta 100 and
memory usage 50 ≤ limit 100. -/
def c8Good : StatsResponse := ⟨⟨⟨50, [0, 0]⟩, 200⟩, ⟨⟨0, [0, 0]⟩, 100⟩, ⟨50, 100⟩⟩

/-- For `b ≤ a < 2^64` the wraparound subtraction is the exact
difference. -/
theorem sub64_of_le (a b : Nat) (hb : b ≤ a) (ha : a < 2 ^ 64) :
    sub64 a b = a - b := by
  have h64 : (2 : Nat) ^ 64 = 18446744073709551616 := by norm_num
  unfold sub64
  rw [h64] at ha ⊢
  omega

/-! ## Claim theorems -/

/-- C1 counterexample: with a one-entry whitelist and a failing config
write, `RemoveFromWhitelist` returns the synchronization error but leaves
the in-memory whitelist mutated (empty) while the external file still
holds the old entry — the in-memory state is not restored, contradicting
the claim that every mutating operation rolls back on write failure. -/
theorem c1_counterexample :
    removeFromWhitelist exState1 "10.0.0.1" "bob" 100 false =
      (⟨[], [], some ⟨["10.0.0.1"], 0⟩, 2⟩,
        some "failed to update Traefik config: failed to write config file") ∧
    exState1.whitelist ≠ [] := by
  decide

/-- C1 (amended): on a failed config-file write, `AddToWhitelist` alone
restores the in-memory list exactly and returns the error;
`RemoveFromWhitelist` returns the error but keeps the filtered (mutated)
list in memory while the file is unchanged; `CleanupExpired` keeps the
mutated list, discards the write error, and has no error return at all. -/
theorem c1_main (st : ManagerState) (ip d b : String) (exp : Option Nat) (now : Nat) :
    (validateIPOrCIDR ip = true → st.whitelist.any (fun e => e.ip == ip) = false →
      addToWhitelist st ip d b exp now false =
        ({ st with writeAttempts := st.writeAttempts + 1 },
          some "failed to update Traefik config: failed to write config file")) ∧
    (st.whitelist.any (fun e => e.ip == ip) = true →
      removeFromWhitelist st ip b now false =
        ({ st with whitelist := st.whitelist.filter (fun e => e.ip ≠ ip),
                   writeAttempts := st.writeAttempts + 1 },
          some "failed to update Traefik config: failed to write config file")) ∧
    ((st.whitelist.filter (fun e => !entryExpired e now)).length < st.whitelist.length →
      (cleanupExpired st now false).1 =
        { st with whitelist := st.whitelist.filter (fun e => !entryExpired e now),
                  writeAttempts := st.writeAttempts + 1 }) := by
  refine ⟨fun hv hnotin => ?_, fun hin => ?_, fun hcl => ?_⟩
  · simp [addToWhitelist, updateTraefikConfig, hv, hnotin, List.dropLast_concat]
  · simp [removeFromWhitelist, updateTraefikConfig, hin]
  · simp [cleanupExpired, updateTraefikConfig, hcl]

/-- C1 witness: the amended statement instantiated on concrete states — a
failed write after an add restores the original list; after a remove it
leaves the entry removed in memory; after a cleanup of an expired entry it
leaves the list shrunk with no error surfaced. -/
theorem c1_witness :
    (addToWhitelist exState1 "10.0.0.2" "d2" "bob" none 100 false =
      ({ exState1 with writeAttempts := exState1.writeAttempts + 1 },
        some "failed to update Traefik config: failed to write config file")) ∧
    (removeFromWhitelist exState1 "10.0.0.1" "bob" 100 false =
      ({ exState1 with
          whitelist := exState1.whitelist.filter (fun e => e.ip ≠ "10.0.0.1"),
          writeAttempts := exState1.writeAttempts + 1 },
        some "failed to update Traefik config: failed to write config file")) ∧
    ((cleanupExpired exState3 100 false).1 =
      { exState3 with
          whitelist := exState3.whitelist.filter (fun e => !entryExpired e 100),
          writeAttempts := exState3.writeAttempts + 1 }) :=
  ⟨(c1_main exState1 "10.0.0.2" "d2" "bob" none 100).1 (by decide) (by decide),
   (c1_main exState1 "10.0.0.1" "d2" "bob" none 100).2.1 (by decide),
   (c1_main exState3 "10.0.0.9" "d" "b" none 100).2.2 (by decide)⟩

/-- C2: for every manager state, time, and IP string that parses, if any
deny-list (blacklist) entry matches the IP then `IsAllowed` returns
`false`, regardless of the whitelist. -/
theorem c2_main (st : ManagerState) (ip : String) (now : Nat) (p : Nat)
    (hp : parseIP ip = some p)
    (hb : ∃ e ∈ st.blacklist, ipMatches p e.ip = true) :
    isAllowed st ip now = false := by
  have hany : st.blacklist.any (fun e => ipMatches p e.ip) = true := by
    rcases hb with ⟨e, he, hm⟩
    exact List.any_eq_true.mpr ⟨e, he, hm⟩
  simp [isAllowed, hp, hany]

/-- C2 witness: an IP present in the whitelist exactly and covered by a
blacklist CIDR is denied. -/
theorem c2_witness :
    parseIP "10.0.0.1" = some 167772161 ∧ isAllowed exState2 "10.0.0.1" 100 = false :=
  ⟨by decide,
   c2_main exState2 "10.0.0.1" 100 167772161 (by decide)
     ⟨⟨"10.0.0.0/8", "blocked range", 0, "alice", none⟩, by decide, by decide⟩⟩

/-- C3: adding a pattern that already exists in the whitelist returns an
error and returns the state completely unchanged — same in-memory lists,
same external file, and the write-attempt counter untouched (no file
write is performed). -/
theorem c3_main (st : ManagerState) (ip d b : String) (exp : Option Nat)
    (now : Nat) (writeOk : Bool)
    (hdup : ∃ e ∈ st.whitelist, e.ip = ip) :
    (addToWhitelist st ip d b exp now writeOk).1 = st ∧
    ((addToWhitelist st ip d b exp now writeOk).2).isSome = true := by
  have hany : st.whitelist.any (fun e => e.ip == ip) = true := by
    rcases hdup with ⟨e, he, hip⟩
    exact List.any_eq_true.mpr ⟨e, he, by simpa using hip⟩
  unfold addToWhitelist
  by_cases hv : validateIPOrCIDR ip
  · simp [hv, hany]
  · simp [hv]

/-- C3 witness: re-adding the already-present `10.0.0.1` on a concrete
state returns the state unchanged with an error, even with a succeeding
file system. -/
theorem c3_witness :
    (addToWhitelist exState1 "10.0.0.1" "again" "bob" none 100 true).1 = exState1 ∧
    ((addToWhitelist exState1 "10.0.0.1" "again" "bob" none 100 true).2).isSome = true :=
  c3_main exState1 "10.0.0.1" "again" "bob" none 100 true ⟨exEntry1, by decide, by decide⟩

/-- C4: in the global and admin tiers, whenever the distributed cache
increment returns an error the admission decision equals the tier's local
token-bucket decision (fail-open) — in particular a cache outage never
yields unconditional denial. -/
theorem c4_main (l : RLimiter) (now : Nat) :
    (∀ e, l.cacheIncrement (rateLimitKey "global" now) = .error e →
        allowGlobal l now = l.localGlobalAllow) ∧
    (∀ e, l.cacheIncrement (rateLimitKey "admin" now) = .error e →
        allowAdmin l now = l.localAdminAllow) := by
  constructor
  · intro e he
    unfold allowGlobal allowDistributed
    by_cases hd : l.distributed ∧ l.hasCache
    · simp [hd, he]
    · simp [hd]
  · intro e he
    unfold allowAdmin allowDistributed
    by_cases hd : l.distributed ∧ l.hasCache
    · simp [hd, he]
    · simp [hd]

/-- C4 witness: a distributed limiter whose cache increment always fails
admits exactly what its local buckets admit (global bucket says allow,
admin bucket says deny). -/
theorem c4_witness :
    allowGlobal exLimiter 1700000000 = true ∧ allowAdmin exLimiter 1700000000 = false :=
  ⟨(c4_main exLimiter 1700000000).1 "redis: connection refused" rfl,
   (c4_main exLimiter 1700000000).2 "redis: connection refused" rfl⟩

/-- C5: for a retried 429 response carrying a `Retry-After` header whose
value is the decimal representation of `n` (within `ParseDuration`'s
`int64` range), the backoff is exactly `n` seconds, irrespective of the
configured backoff bounds and the attempt number. -/
theorem c5_main (mn mx : Int) (attemptNum : Nat) (h : String) (n : Nat)
    (hne : h.toList ≠ []) (hdig : h.toList.all Char.isDigit = true)
    (hval : decVal h.toList = some n)
    (hof : (n : Int) * 1000000000 < 2 ^ 63) :
    retryBackoff mn mx attemptNum (some ⟨429, h⟩) = (n : Int) * 1000000000 := by
  have hne' : h ≠ "" := by
    intro h0
    rw [h0] at hne
    exact hne rfl
  have hdigD : ∀ x ∈ h.data, x.isDigit = true := by simpa using hdig
  have hneD : ¬h.data = [] := hne
  have hvalD : decVal h.data = some n := hval
  have hof' : (n : Int) * 1000000000 < 9223372036854775808 := by
    norm_num at hof
    exact hof
  simp [retryBackoff, goParseSecondsDuration, hne', hneD, hvalD, hof']
  rw [if_pos hdigD]

/-- C5 witness: `Retry-After: 2` produces a wait of exactly 2 seconds
(2·10⁹ ns), overriding a 1 s–30 s exponential backoff schedule. -/
theorem c5_witness :
    retryBackoff 1000000000 30000000000 0 (some ⟨429, "2"⟩) = (2 : Int) * 1000000000 :=
  c5_main 1000000000 30000000000 0 "2" 2 (by decide) (by decide) (by decide) (by decide)

/-- C6: `Readiness` is `false` exactly when `CheckPostgreSQL` reports a
status other than `"healthy"`, and the result is invariant under every
change of the Redis probe environment — the cache has no effect. -/
theorem c6_main (d : DatabaseChecker) :
    (readiness d = false ↔ checkPostgreSQLStatus d.pg ≠ "healthy") ∧
    (∀ r', readiness ⟨d.pg, r'⟩ = readiness d) := by
  constructor
  · simp [readiness]
  · intro r'
    rfl

/-- C6 witness: with PostgreSQL's ping failing, readiness is `false` even
though Redis is configured and healthy; and readiness is unchanged when
the Redis probe environment is replaced by a totally failing one. -/
theorem c6_witness :
    readiness exCheckerPgDown = false ∧
    readiness ⟨exCheckerPgDown.pg, ⟨false, false⟩⟩ = readiness exCheckerPgDown :=
  ⟨(c6_main exCheckerPgDown).1.mpr (by decide),
   (c6_main exCheckerPgDown).2 ⟨false, false⟩⟩

/-- C7: evaluating `ExecuteContext`'s synchronization structure at the
failing input — context not yet cancelled at entry but cancelled while the
call is in flight — the caller receives the context error, yet the
underlying wrapped call still runs to completion: cancellation stops only
the code waiting on the result, it does not abort the in-flight call. The
claim (and §9 of the design notes, which flags this exact pattern as a
defect) requires the underlying call itself to be aborted. -/
theorem c7_code_eval :
    @executeContext Bool false true true = ⟨none, true⟩ := rfl

/-- C8 counterexample: the sample `c8Bad` satisfies every well-formedness
condition the claim lists (previous system usage non-zero, system delta
positive, memory limit positive), yet the computed CPU percentage is 200 on
a 1-core sample (outside `[0, 100 × coreCount] = [0, 100]`) and the memory
percentage is 200 (outside `[0, 100]`): the code never clamps, so a
container delta exceeding the system delta, or usage above the limit,
violates the claimed bounds. -/
theorem c8_counterexample :
    c8Bad.preCPUStats.systemUsage ≠ 0 ∧
    0 < sub64 c8Bad.cpuStats.systemUsage c8Bad.preCPUStats.systemUsage ∧
    0 < c8Bad.memoryStats.limit ∧
    c8Bad.cpuStats.cpuUsage.percpuUsage.length = 1 ∧
    cpuPercentOf c8Bad = 200 ∧
    memPercentOf c8Bad = 200 := by
  refine ⟨by decide, by decide, by decide, by decide, ?_, ?_⟩
  · norm_num [cpuPercentOf, sub64, c8Bad]
  · norm_num [memPercentOf, c8Bad]

/-- C8 (amended): for a well-formed pair of samples in the strengthened
sense — cumulative counters monotone and below 2⁶⁴, previous system usage
non-zero, system delta positive, the container CPU delta at most the
system delta, memory limit positive, and usage at most the limit — the CPU
percentage lies in `[0, 100 × coreCount]` and the memory percentage in
`[0, 100]`. -/
theorem c8_main (s : StatsResponse)
    (hcw : s.cpuStats.cpuUsage.totalUsage < 2 ^ 64)
    (hsw : s.cpuStats.systemUsage < 2 ^ 64)
    (hpre : s.preCPUStats.systemUsage ≠ 0)
    (hm1 : s.preCPUStats.cpuUsage.totalUsage ≤ s.cpuStats.cpuUsage.totalUsage)
    (hm2 : s.preCPUStats.systemUsage < s.cpuStats.systemUsage)
    (hbound : s.cpuStats.cpuUsage.totalUsage - s.preCPUStats.cpuUsage.totalUsage ≤
      s.cpuStats.systemUsage - s.preCPUStats.systemUsage)
    (hlim : 0 < s.memoryStats.limit)
    (husage : s.memoryStats.usage ≤ s.memoryStats.limit) :
    0 ≤ cpuPercentOf s ∧
    cpuPercentOf s ≤ 100 * (s.cpuStats.cpuUsage.percpuUsage.length : ℚ) ∧
    0 ≤ memPercentOf s ∧ memPercentOf s ≤ 100 := by
  have hΔc : sub64 s.cpuStats.cpuUsage.totalUsage s.preCPUStats.cpuUsage.totalUsage =
      s.cpuStats.cpuUsage.totalUsage - s.preCPUStats.cpuUsage.totalUsage :=
    sub64_of_le _ _ hm1 hcw
  have hΔs : sub64 s.cpuStats.systemUsage s.preCPUStats.systemUsage =
      s.cpuStats.systemUsage - s.preCPUStats.systemUsage :=
    sub64_of_le _ _ (le_of_lt hm2) hsw
  have hspos : 0 < s.cpuStats.systemUsage - s.preCPUStats.systemUsage := by omega
  have hsposQ : (0 : ℚ) <
      ((s.cpuStats.systemUsage - s.preCPUStats.systemUsage : Nat) : ℚ) := by
    exact_mod_cast hspos
  have hdivle : ((s.cpuStats.cpuUsage.totalUsage - s.preCPUStats.cpuUsage.totalUsage : Nat) : ℚ) /
      ((s.cpuStats.systemUsage - s.preCPUStats.systemUsage : Nat) : ℚ) ≤ 1 := by
    rw [div_le_one hsposQ]
    exact_mod_cast hbound
  have hcpu : cpuPercentOf s =
      ((s.cpuStats.cpuUsage.totalUsage - s.preCPUStats.cpuUsage.totalUsage : Nat) : ℚ) /
        ((s.cpuStats.systemUsage - s.preCPUStats.systemUsage : Nat) : ℚ) *
        (s.cpuStats.cpuUsage.percpuUsage.length : ℚ) * 100 := by
    rw [cpuPercentOf, if_pos hpre, hΔc, hΔs, if_pos hsposQ]
  have hmem : memPercentOf s =
      (s.memoryStats.usage : ℚ) / (s.memoryStats.limit : ℚ) * 100 := by
    rw [memPercentOf, if_pos hlim]
  have hlimQ : (0 : ℚ) < (s.memoryStats.limit : ℚ) := by exact_mod_cast hlim
  have hmemle : (s.memoryStats.usage : ℚ) / (s.memoryStats.limit : ℚ) ≤ 1 := by
    rw [div_le_one hlimQ]
    exact_mod_cast husage
  refine ⟨?_, ?_, ?_, ?_⟩
  · rw [hcpu]
    positivity
  · rw [hcpu]
    calc ((s.cpuStats.cpuUsage.totalUsage - s.preCPUStats.cpuUsage.totalUsage : Nat) : ℚ) /
          ((s.cpuStats.systemUsage - s.preCPUStats.systemUsage : Nat) : ℚ) *
          (s.cpuStats.cpuUsage.percpuUsage.length : ℚ) * 100 ≤
        1 * (s.cpuStats.cpuUsage.percpuUsage.length : ℚ) * 100 := by
          have hL : (0 : ℚ) ≤ (s.cpuStats.cpuUsage.percpuUsage.length : ℚ) :=
            Nat.cast_nonneg _
          gcongr
      _ = 100 * (s.cpuStats.cpuUsage.percpuUsage.length : ℚ) := by ring
  · rw [hmem]
    positivity
  · rw [hmem]
    calc (s.memoryStats.usage : ℚ) / (s.memoryStats.limit : ℚ) * 100 ≤ 1 * 100 := by gcongr
      _ = 100 := by ring

/-- C8 witness: the amended bounds hold on the concrete two-core sample
`c8Good`. -/
theorem c8_witness :
    0 ≤ cpuPercentOf c8Good ∧
    cpuPercentOf c8Good ≤ 100 * (c8Good.cpuStats.cpuUsage.percpuUsage.length : ℚ) ∧
    0 ≤ memPercentOf c8Good ∧ memPercentOf c8Good ≤ 100 :=
  c8_main c8Good (by decide) (by decide) (by decide) (by decide) (by decide)
    (by decide) (by decide) (by decide)

/-- C9 counterexample: `1.2.3.45` and `1.2.3.55` share their entire
network prefix (`1.2.3`) and differ only in the host octet, yet `maskIP`
produces different outputs for them — a byte of the host-identifying
suffix survives masking, so the function does not retain only the leading
octets. -/
theorem c9_counterexample :
    maskIP "1.2.3.45" = "1.2.3.4.xxx.xxx" ∧
    maskIP "1.2.3.55" = "1.2.3.5.xxx.xxx" ∧
    maskIP "1.2.3.45" ≠ maskIP "1.2.3.55" := by
  decide

/-- C9 (amended): before an audit event is emitted its client IP is
replaced by `maskIP`, which keeps exactly the first 7 bytes of the address
string and appends `".xxx.xxx"` when the string is longer than 7 bytes
(returning `"masked"` for shorter non-empty strings and `"unknown"` for
the empty string). For addresses whose first two octets and dots span at
least 7 bytes this drops the host suffix, but for shorter addresses bytes
of the third and fourth octets are retained. -/
theorem c9_main (e : AuditEventM) :
    (logEventEmitted e).ipAddress = maskIP e.ipAddress ∧
    (e.ipAddress = "" → (logEventEmitted e).ipAddress = "unknown") ∧
    (7 < e.ipAddress.length →
      (logEventEmitted e).ipAddress = e.ipAddress.take 7 ++ ".xxx.xxx") ∧
    (e.ipAddress ≠ "" → e.ipAddress.length ≤ 7 →
      (logEventEmitted e).ipAddress = "masked") := by
  refine ⟨rfl, fun h0 => ?_, fun hlen => ?_, fun hne hle => ?_⟩
  · simp [logEventEmitted, maskIP, h0]
  · have hne : e.ipAddress ≠ "" := by
      intro h0
      rw [h0] at hlen
      simp at hlen
    simp [logEventEmitted, maskIP, hne, hlen]
  · have hnlt : ¬7 < e.ipAddress.length := by omega
    simp [logEventEmitted, maskIP, hne, hnlt]

/-- C9 witness: a full-length address is truncated to its first 7 bytes
plus the fixed suffix. -/
theorem c9_witness :
    (logEventEmitted ⟨"auth_failure", "unknown", "/a", false, "203.0.113.99"⟩).ipAddress =
      ("203.0.113.99" : String).take 7 ++ ".xxx.xxx" :=
  (c9_main ⟨"auth_failure", "unknown", "/a", false, "203.0.113.99"⟩).2.2.1 (by decide)

/-- C10: building the stats result slices the caller-supplied name-or-ID
to its first 12 bytes unconditionally: the operation completes (without
the slice panicking) iff the identifier is at least 12 bytes long, in
which case the result ID is exactly the first 12 bytes. -/
theorem c10_main (s : String) :
    ((getContainerStatsID s).isSome ↔ 12 ≤ s.length) ∧
    (12 ≤ s.length → getContainerStatsID s = some (s.take 12)) := by
  unfold getContainerStatsID goStringSliceTo
  by_cases h : 12 ≤ s.length <;> simp [h]

/-- C10 witness: a 17-byte container name yields its first 12 bytes as the
stats ID (and a 3-byte name makes the slice panic, embedded as `none`). -/
theorem c10_witness :
    getContainerStatsID "aquatiq-gateway-1" = some "aquatiq-gate" ∧
    getContainerStatsID "abc" = none :=
  ⟨(c10_main "aquatiq-gateway-1").2 (by decide), by decide⟩

end Aquatiq
